import Mathlib

/-!
# Verification of the `hotpath` limit-order client

Shallow embedding of `src/hotpath/{client,config,policy,types}.rs` of the
`rs-clob-client` repository, together with theorems settling the frozen
claims C1–C10 about it.

Conventions of the embedding:
* `rust_decimal::Decimal` is modelled by `Dec` (a signed integer mantissa and
  a base-10 scale).  All inputs exercised here stay inside the library's
  representable range (|mantissa| < 2^96, scale ≤ 28), where the modelled
  operations agree with the library; the negative-zero sign flag, which no
  claim exercises, is not representable in the `Int` mantissa.
* machine integers (`u32`, `u64`, `u128`) are modelled by `Nat`; `i64`/`i128`
  by `Int`.  Overflow does not occur on any path modelled here except where
  the source itself checks (`to_u64`, `to_u128`), which is modelled by the
  corresponding explicit checks.
* network transport, the EIP-712 hashing/signature step and the wall clock
  are external capabilities (spec §1, §4.4): stateful outcomes (HTTP call
  results, the random salt seed, `Utc::now()`) are passed to the embedded
  functions as explicit arguments.
-/

set_option maxRecDepth 8000

/-- Model of `rust_decimal::Decimal`: the value `mantissa / 10 ^ scale`. -/
structure Dec where
  mantissa : Int
  scale : Nat
  deriving DecidableEq, Repr

/-- Embeds `Decimal::is_sign_negative` (the `Int` mantissa carries the sign). -/
def Dec.is_sign_negative (d : Dec) : Bool := d.mantissa < 0

/-- Embeds `Decimal::is_zero`. -/
def Dec.is_zero (d : Dec) : Bool := d.mantissa = 0

/-- The loop of `Decimal::normalize`: strip factors of 10 from the mantissa
while the scale is positive. -/
def stripTrailingZeros : Int → Nat → Int × Nat
  | m, 0 => (m, 0)
  | m, s + 1 => if m % 10 = 0 then stripTrailingZeros (m / 10) s else (m, s + 1)

/-- Embeds `Decimal::normalize`: strips trailing zeros (a zero mantissa drains to
scale 0, as in the library's `is_zero` fast path). -/
def Dec.normalize (d : Dec) : Dec :=
  let p := stripTrailingZeros d.mantissa d.scale
  ⟨p.1, p.2⟩

/-- Embeds `Decimal::trunc_with_scale`: if the current scale already fits it returns
the value unchanged (it never pads the scale up); otherwise it divides the
mantissa by 10 per excess digit, truncating toward zero. -/
def Dec.trunc_with_scale (d : Dec) (scale : Nat) : Dec :=
  if d.scale ≤ scale then d
  else ⟨Int.tdiv d.mantissa (10 ^ (d.scale - scale)), scale⟩

/-- Embeds `Decimal` multiplication; in the non-overflowing range used here the
result is the product of mantissas at the sum of the scales. -/
def Dec.mul (a b : Dec) : Dec := ⟨a.mantissa * b.mantissa, a.scale + b.scale⟩

/-- Embeds `Decimal::ONE`. -/
def Dec.one : Dec := ⟨1, 0⟩

/-- Embeds `Decimal` subtraction: align to the larger scale and subtract mantissas
(no overflow in the range used here). -/
def Dec.sub (a b : Dec) : Dec :=
  let s := max a.scale b.scale
  ⟨a.mantissa * 10 ^ (s - a.scale) - b.mantissa * 10 ^ (s - b.scale), s⟩

/-- Embeds `Decimal`'s `PartialOrd`: comparison of the represented values, by
cross-multiplying the mantissas. -/
def Dec.lt (a b : Dec) : Bool :=
  a.mantissa * 10 ^ b.scale < b.mantissa * 10 ^ a.scale

/-- Embeds `Decimal`'s `PartialEq`: equality of the represented values. -/
def Dec.beq (a b : Dec) : Bool :=
  a.mantissa * 10 ^ b.scale = b.mantissa * 10 ^ a.scale

/-- Rendering used by `Decimal`'s `Display` in the error messages: the
mantissa's digits with the decimal point inserted `scale` places from the
right.  Only the shape of the messages depends on it. -/
def Dec.render (d : Dec) : String :=
  let n := d.mantissa.natAbs
  let sign := if d.mantissa < 0 then "-" else ""
  if d.scale = 0 then sign ++ toString n
  else
    let digits := toString n
    let digits :=
      if digits.length ≤ d.scale then
        String.mk (List.replicate (d.scale + 1 - digits.length) '0') ++ digits
      else digits
    let intLen := digits.length - d.scale
    sign ++ digits.take intLen ++ "." ++ digits.drop intLen

/-- Modelled from the spec: `crate::error::{Error, Kind}` is not under
`src/`; §7's error taxonomy distinguishes validation errors, HTTP-status
errors (non-2xx responses), transport errors (network) and decode errors
(parse), and `client.rs` matches on `Kind::Status`. -/
inductive ErrorKind where
  | validation
  | status
  | transport
  | decode
  deriving DecidableEq, Repr

/-- Modelled from the spec: an error value carries its kind and an actionable
message (§7: "all error values must carry enough context"). -/
structure Error where
  kind : ErrorKind
  msg : String
  deriving DecidableEq, Repr

/-- Embeds `Error::validation`. -/
def Error.validation (msg : String) : Error := ⟨.validation, msg⟩

@[simp] theorem Error.kind_validation (msg : String) :
    (Error.validation msg).kind = ErrorKind.validation := rfl

@[simp] theorem Error.msg_validation (msg : String) :
    (Error.validation msg).msg = msg := rfl

/-- Embeds `const USDC_DECIMALS: u32 = 6`. -/
def USDC_DECIMALS : Nat := 6

/-- Embeds `const LOT_SIZE_SCALE: u32 = 2`. -/
def LOT_SIZE_SCALE : Nat := 2

/-- Embeds `i128::to_u128`: fails on negative input (the magnitude always fits). -/
def i128_to_u128 (m : Int) : Option Nat :=
  if 0 ≤ m ∧ m < 2 ^ 128 then some m.toNat else none

/-- Embeds `to_fixed_u128` (client.rs:426): reject negatives, normalize, truncate to
6 decimals, and take the resulting mantissa as the fixed-point integer. -/
def to_fixed_u128 (d : Dec) : Except Error Nat :=
  if d.is_sign_negative then
    .error (Error.validation ("amount cannot be negative: " ++ d.render))
  else
    match i128_to_u128 ((d.normalize.trunc_with_scale USDC_DECIMALS).mantissa) with
    | some v => .ok v
    | none => .error (Error.validation ("unable to represent amount as u128: " ++ d.render))

/-- Embeds `to_ieee_754_int` (client.rs:441): mask the salt to its low 53 bits. -/
def to_ieee_754_int (salt : Nat) : Nat :=
  salt &&& ((1 <<< 53) - 1)

/-- Modelled from the spec: `crate::types::Address` is not under `src/`; a
160-bit on-chain account identifier with a distinguished zero value. -/
def Address : Type := Nat

instance : DecidableEq Address := instDecidableEqNat

/-- Embeds `Address::ZERO`. -/
def Address.ZERO : Address := (0 : Nat)

/-- Modelled from the spec: the crate-root `POLYGON` chain-id constant is not
under `src/`; §3 names Polygon mainnet (chain id 137) as the only supported
chain. -/
def POLYGON : Nat := 137

/-- Modelled from the spec: `crate::clob::types::SignatureType` is not under
`src/`; its three modes and their numeric tags 0/1/2 follow §3 and the
string-input mapping in `hotpath/types.rs`. -/
inductive SignatureType where
  | Eoa
  | Proxy
  | GnosisSafe
  deriving DecidableEq, Repr

/-- Embeds `SignatureType as u8` (tags 0/1/2, matching `SignatureTypeInput::parse`). -/
def SignatureType.tag : SignatureType → Nat
  | .Eoa => 0
  | .Proxy => 1
  | .GnosisSafe => 2

/-- Modelled from the spec: `crate::clob::types::OrderType` is not under
`src/`; the order lifetime types are good-till-cancelled, good-till-date and
the immediate types (fill-and-kill / fill-or-kill) implied by §4.2's
"post-only is only permitted for GTC or GTD". -/
inductive OrderType where
  | GTC
  | GTD
  | FAK
  | FOK
  deriving DecidableEq, Repr

/-- Modelled from the spec: `crate::clob::types::Side` is not under `src/`;
buy and sell with wire tags 0/1, plus a further value standing for §4.2's
"any other side value is rejected". -/
inductive Side where
  | Buy
  | Sell
  | OtherSide
  deriving DecidableEq, Repr

/-- Embeds `Side as u8`. -/
def Side.tag : Side → Nat
  | .Buy => 0
  | .Sell => 1
  | .OtherSide => 2

/-- Modelled from the spec: `crate::clob::types::TickSize` is not under
`src/`; per §3/glossary a tick size is the minimum price increment, one of
the decimal steps 0.1, 0.01, 0.001, 0.0001 (the spec's examples use 0.01 and
price scales up to `tickDecimals + 2 = 4` digits). -/
inductive TickSize where
  | tenth
  | hundredth
  | thousandth
  | tenThousandth
  deriving DecidableEq, Repr

/-- Embeds `TickSize::as_decimal`. -/
def TickSize.as_decimal : TickSize → Dec
  | .tenth => ⟨1, 1⟩
  | .hundredth => ⟨1, 2⟩
  | .thousandth => ⟨1, 3⟩
  | .tenThousandth => ⟨1, 4⟩

/-- Modelled from the spec: `crate::auth::Credentials` is not under `src/`;
§3 describes it as the API key/secret/passphrase triple. -/
structure Credentials where
  key : String
  secret : String
  passphrase : String
  deriving DecidableEq, Repr

/-- Embeds `FixedOrFetch` (policy.rs:11). -/
inductive FixedOrFetch (α : Type) where
  | Fixed (value : α)
  | FetchAndCache
  deriving DecidableEq, Repr

/-- Embeds `FixedOrFetch::resolve_fixed` (policy.rs:17). -/
def FixedOrFetch.resolve_fixed {α : Type} (self : FixedOrFetch α) (field : String) :
    Except Error α :=
  match self with
  | .Fixed value => .ok value
  | .FetchAndCache =>
      .error (Error.validation (field ++ " policy FetchAndCache is not implemented in hotpath yet"))

/-- Embeds `TimePolicy` (policy.rs:32). -/
inductive TimePolicy where
  | Fixed
  | FetchAndCache
  deriving DecidableEq, Repr

/-- Embeds `TimePolicy::ensure_supported` (policy.rs:38). -/
def TimePolicy.ensure_supported (self : TimePolicy) : Except Error Unit :=
  match self with
  | .Fixed => .ok ()
  | .FetchAndCache =>
      .error (Error.validation "time policy FetchAndCache is not implemented in hotpath yet")

/-- Embeds `HotPathPolicies` (policy.rs:50). -/
structure HotPathPolicies where
  tick_size : FixedOrFetch TickSize
  neg_risk : FixedOrFetch Bool
  fee_rate_bps : FixedOrFetch Nat
  time : TimePolicy
  deriving DecidableEq, Repr

/-- Embeds `HotPathPolicies::default_tick_size`. -/
def HotPathPolicies.default_tick_size (self : HotPathPolicies) : Except Error TickSize :=
  self.tick_size.resolve_fixed "tick_size"

/-- Embeds `HotPathPolicies::default_neg_risk`. -/
def HotPathPolicies.default_neg_risk (self : HotPathPolicies) : Except Error Bool :=
  self.neg_risk.resolve_fixed "neg_risk"

/-- Embeds `HotPathPolicies::default_fee_rate_bps`. -/
def HotPathPolicies.default_fee_rate_bps (self : HotPathPolicies) : Except Error Nat :=
  self.fee_rate_bps.resolve_fixed "fee_rate_bps"

/-- Embeds `HotPathPolicies::validate` (policy.rs:70): time first, then the three
value slots, eagerly. -/
def HotPathPolicies.validate (self : HotPathPolicies) : Except Error Unit :=
  match self.time.ensure_supported with
  | .error e => .error e
  | .ok _ =>
    match self.default_tick_size with
    | .error e => .error e
    | .ok _ =>
      match self.default_neg_risk with
      | .error e => .error e
      | .ok _ =>
        match self.default_fee_rate_bps with
        | .error e => .error e
        | .ok _ => .ok ()

/-- Embeds `HotPathConfig` (config.rs:24); the `Url` host and the secret private key
are opaque strings here (parsing them is external to this core). -/
structure HotPathConfig where
  host : String
  chain_id : Nat
  private_key : String
  signature_type : SignatureType
  funder : Address
  nonce : Option Nat
  policies : HotPathPolicies

/-- Embeds `HotPathConfig::new` (config.rs:58): chain check, signature-type check,
funder check, then eager policy validation; no network activity. -/
def HotPathConfig.new (host : String) (chain_id : Nat) (private_key : String)
    (signature_type : SignatureType) (funder : Address) (nonce : Option Nat)
    (policies : HotPathPolicies) : Except Error HotPathConfig :=
  if chain_id ≠ POLYGON then
    .error (Error.validation
      ("hotpath currently supports Polygon only, got chain_id=" ++ toString chain_id))
  else if signature_type = SignatureType.Eoa then
    .error (Error.validation
      "hotpath config expects proxy signatures (Proxy/GnosisSafe), got Eoa")
  else if funder = Address.ZERO then
    .error (Error.validation
      "hotpath config requires non-zero funder for proxy signatures")
  else
    match policies.validate with
    | .error e => .error e
    | .ok _ =>
        .ok { host, chain_id, private_key, signature_type, funder, nonce, policies }

/-- Embeds `LimitOrderRequest` (types.rs:45); `DateTime<Utc>` expirations are unix
seconds (`Int`), token ids and nonces machine integers (`Nat`). -/
structure LimitOrderRequest where
  token_id : Nat
  side : Side
  price : Dec
  size : Dec
  nonce : Option Nat
  expiration : Option Int
  taker : Option Address
  order_type : Option OrderType
  post_only : Option Bool

/-- Embeds `LimitOrderOverrides` (types.rs:76). -/
structure LimitOrderOverrides where
  tick_size : Option TickSize
  neg_risk : Option Bool
  fee_rate_bps : Option Nat
  timestamp : Option Int

/-- Embeds `LimitOrderOverrides::default()`: nothing overridden. -/
def LimitOrderOverrides.default : LimitOrderOverrides := ⟨none, none, none, none⟩

/-- Embeds `HotPathClient` (client.rs:39): the fields `sign_limit_order` reads; the
signer keypair is represented by its address (the signing capability is
external, spec §4.4), and the HTTP client by nothing. -/
structure HotPathClient where
  host : String
  chain_id : Nat
  nonce : Option Nat
  signerAddress : Address
  signature_type : SignatureType
  funder : Address
  policies : HotPathPolicies
  credentials : Credentials

/-- Embeds `HotPathClient::validate_funder_signature` (client.rs:394). -/
def validate_funder_signature (signature_type : SignatureType) (funder : Address) :
    Except Error Unit :=
  if signature_type = SignatureType.Eoa then
    .error (Error.validation "Cannot have a funder address with an Eoa signature type")
  else if funder = Address.ZERO then
    .error (Error.validation "Cannot have a zero funder address with a proxy signature type")
  else .ok ()

/-- Embeds `HotPathClient::with_credentials_inner` (client.rs:92), reached from both
`with_credentials` and `with_credentials_and_client`: validates only the
signature-type/funder pair and assembles the client; `signerAddress` stands
for the address of the signer parsed from the config's key. -/
def with_credentials_inner (config : HotPathConfig) (signerAddress : Address)
    (credentials : Credentials) : Except Error HotPathClient :=
  match validate_funder_signature config.signature_type config.funder with
  | .error e => .error e
  | .ok _ =>
      .ok { host := config.host, chain_id := config.chain_id, nonce := config.nonce,
            signerAddress, signature_type := config.signature_type,
            funder := config.funder, policies := config.policies, credentials }

/-- Embeds `HotPathClient::create_or_derive_api_key` (client.rs:318).  The two HTTP
calls are external transport actions; their outcomes are inputs here, and the
derive endpoint is a thunk so that the result's independence from it in the
non-`Status` branches witnesses that the derive call is never issued there. -/
def create_or_derive_api_key (create : Except Error Credentials)
    (derive : Unit → Except Error Credentials) : Except Error Credentials :=
  match create with
  | .ok creds => .ok creds
  | .error err => if err.kind = ErrorKind.status then derive () else .error err

/-- Embeds `resolve_timestamp` (client.rs:409); `now` stands for
`Utc::now().timestamp()`. -/
def resolve_timestamp (now : Int) (policy : TimePolicy) (override_timestamp : Option Int) :
    Except Error Int :=
  match override_timestamp with
  | some ts => .ok ts
  | none =>
    match policy with
    | .Fixed => .ok now
    | .FetchAndCache =>
        .error (Error.validation "time policy FetchAndCache is not implemented in hotpath yet")

/-- The `Order` record built by `sign_limit_order` (client.rs:263); `U256`
fields are `Nat`, addresses `Address`, tags `Nat`. -/
structure Order where
  salt : Nat
  maker : Address
  signer : Address
  taker : Address
  tokenId : Nat
  makerAmount : Nat
  takerAmount : Nat
  expiration : Nat
  nonce : Nat
  feeRateBps : Nat
  side : Nat
  signatureType : Nat

/-- The `overrides.x.map_or_else(|| default, Ok)` pattern of
client.rs:179-187: a supplied per-call override wins, otherwise the fixed
policy default is resolved. -/
def resolve_override {α : Type} (override : Option α) (default : Except Error α) :
    Except Error α :=
  match override with
  | some value => .ok value
  | none => default

/-- Condition of the expiration check (client.rs:195): a non-GTD order with
an expiration strictly after the unix epoch. -/
def non_gtd_expiration (order_type : OrderType) (expiration : Int) : Bool :=
  !(order_type = OrderType.GTD) && 0 < expiration

/-- Condition of the post-only check (client.rs:200). -/
def post_only_unsupported (post_only : Bool) (order_type : OrderType) : Bool :=
  post_only && !(order_type = OrderType.GTC ∨ order_type = OrderType.GTD)

/-- Condition of the lot-size check (client.rs:220). -/
def size_scale_exceeded (size : Dec) : Bool :=
  LOT_SIZE_SCALE < size.scale

/-- Condition of the price-scale check (client.rs:230). -/
def price_scale_exceeded (price minimum_tick_size : Dec) : Bool :=
  minimum_tick_size.scale < price.scale

/-- Condition of the price-range check (client.rs:238):
`price < minimum_tick_size || price > Decimal::ONE - minimum_tick_size`. -/
def price_out_of_range (price minimum_tick_size : Dec) : Bool :=
  price.lt minimum_tick_size || (Dec.one.sub minimum_tick_size).lt price

/-- The `match side` of client.rs:244: a buy takes the size, a sell gives the
size, and the price×size leg is truncated to `decimals + LOT_SIZE_SCALE`
fractional digits; any other side is rejected. -/
def side_amounts (side : Side) (size price : Dec) (decimals : Nat) :
    Except Error (Dec × Dec) :=
  match side with
  | Side.Buy =>
      Except.ok (size, (size.mul price).trunc_with_scale (decimals + LOT_SIZE_SCALE))
  | Side.Sell =>
      Except.ok ((size.mul price).trunc_with_scale (decimals + LOT_SIZE_SCALE), size)
  | other => Except.error (Error.validation ("Invalid side: " ++ toString other.tag))

/-- Embeds `HotPathClient::sign_limit_order` (client.rs:174), up to the point where
the order record is fully built.  The random salt seed (`generate_seed()`) is
the explicit `seed` argument; the subsequent EIP-712 domain construction and
signature (client.rs:278-299) are the external signing capability of spec
§4.4 and are not modelled — every claim concerns the validation and the built
record. -/
def sign_limit_order (c : HotPathClient) (request : LimitOrderRequest)
    (overrides : LimitOrderOverrides) (seed : Nat) : Except Error Order :=
  match resolve_override overrides.tick_size c.policies.default_tick_size with
  | .error e => .error e
  | .ok tick_size =>
  match resolve_override overrides.neg_risk c.policies.default_neg_risk with
  | .error e => .error e
  | .ok _neg_risk =>
  match resolve_override overrides.fee_rate_bps c.policies.default_fee_rate_bps with
  | .error e => .error e
  | .ok fee_rate_bps =>
  let order_type := request.order_type.getD OrderType.GTC
  let expiration := request.expiration.getD 0
  let nonce := request.nonce.getD 0
  let taker := request.taker.getD Address.ZERO
  let post_only := request.post_only.getD false
  if non_gtd_expiration order_type expiration then
    .error (Error.validation "Only GTD orders may have a non-zero expiration")
  else if post_only_unsupported post_only order_type then
    .error (Error.validation "postOnly is only supported for GTC and GTD orders")
  else
  let price := request.price
  let size := request.size
  let side := request.side
  if price.is_sign_negative then
    .error (Error.validation
      ("Unable to build Order due to negative price " ++ price.render))
  else if size.is_zero || size.is_sign_negative then
    .error (Error.validation
      ("Unable to build Order due to negative size " ++ size.render))
  else if size_scale_exceeded size then
    .error (Error.validation
      ("Unable to build Order: Size " ++ size.render ++ " has " ++ toString size.scale
        ++ " decimal places. Maximum " ++ "lot size" ++ " is " ++ toString LOT_SIZE_SCALE))
  else
  let minimum_tick_size := tick_size.as_decimal
  let decimals := minimum_tick_size.scale
  if price_scale_exceeded price minimum_tick_size then
    .error (Error.validation
      ("Unable to build Order: Price " ++ price.render ++ " has " ++ toString price.scale
        ++ " decimal places. Minimum tick size " ++ minimum_tick_size.render ++ " has "
        ++ toString minimum_tick_size.scale
        ++ " decimal places. Price decimal places <= minimum tick size decimal places"))
  else if price_out_of_range price minimum_tick_size then
    .error (Error.validation
      ("Price " ++ price.render ++ " is too small or too large for the minimum tick size "
        ++ minimum_tick_size.render))
  else
  match side_amounts side size price decimals with
  | .error e => .error e
  | .ok (taker_amount, maker_amount) =>
  if expiration < 0 then
    .error (Error.validation
      ("Unable to represent expiration " ++ toString expiration ++ " as a u64"))
  else
  match to_fixed_u128 maker_amount with
  | .error e => .error e
  | .ok makerAmount =>
  match to_fixed_u128 taker_amount with
  | .error e => .error e
  | .ok takerAmount =>
  .ok { salt := to_ieee_754_int seed, maker := c.funder, signer := c.signerAddress,
        taker, tokenId := request.token_id, makerAmount, takerAmount,
        expiration := expiration.toNat, nonce, feeRateBps := fee_rate_bps,
        side := side.tag, signatureType := c.signature_type.tag }

/-- All-fixed policies used in concrete instances: tick 0.01, no negative
risk, zero fee, local clock. -/
def fixedPolicies : HotPathPolicies :=
  ⟨.Fixed .hundredth, .Fixed false, .Fixed 0, .Fixed⟩

/-- A concrete client (funder and signer non-zero, proxy signatures). -/
def clientEx : HotPathClient :=
  { host := "https://clob.example", chain_id := POLYGON, nonce := none,
    signerAddress := (2 : Nat), signature_type := .Proxy, funder := (1 : Nat),
    policies := fixedPolicies, credentials := ⟨"key", "secret", "pass"⟩ }

/-- The spec §8 example request: price 0.55, size 10.00, side Buy. -/
def requestEx : LimitOrderRequest :=
  { token_id := 7, side := .Buy, price := ⟨55, 2⟩, size := ⟨1000, 2⟩,
    nonce := none, expiration := none, taker := none, order_type := none,
    post_only := none }

/-- Whether a `FixedOrFetch` slot carries a fixed value. -/
def FixedOrFetch.isFixed {α : Type} : FixedOrFetch α → Bool
  | .Fixed _ => true
  | .FetchAndCache => false

theorem resolve_fixed_error_validation {α : Type} (x : FixedOrFetch α) (field : String)
    (e : Error) (h : x.resolve_fixed field = .error e) : e.kind = ErrorKind.validation := by
  cases x <;> simp [FixedOrFetch.resolve_fixed] at h
  subst h
  rfl

theorem resolve_override_error_validation {α : Type} (o : Option α) (d : Except Error α)
    (e : Error) (hd : ∀ e2, d = .error e2 → e2.kind = ErrorKind.validation)
    (h : resolve_override o d = .error e) : e.kind = ErrorKind.validation := by
  cases o <;> simp [resolve_override] at h
  exact hd e h

theorem resolve_tick_error_validation (o : Option TickSize) (p : HotPathPolicies)
    (e : Error) (h : resolve_override o p.default_tick_size = .error e) :
    e.kind = ErrorKind.validation :=
  resolve_override_error_validation o _ e
    (fun e2 h2 => resolve_fixed_error_validation p.tick_size "tick_size" e2 h2) h

theorem resolve_neg_error_validation (o : Option Bool) (p : HotPathPolicies)
    (e : Error) (h : resolve_override o p.default_neg_risk = .error e) :
    e.kind = ErrorKind.validation :=
  resolve_override_error_validation o _ e
    (fun e2 h2 => resolve_fixed_error_validation p.neg_risk "neg_risk" e2 h2) h

theorem resolve_fee_error_validation (o : Option Nat) (p : HotPathPolicies)
    (e : Error) (h : resolve_override o p.default_fee_rate_bps = .error e) :
    e.kind = ErrorKind.validation :=
  resolve_override_error_validation o _ e
    (fun e2 h2 => resolve_fixed_error_validation p.fee_rate_bps "fee_rate_bps" e2 h2) h

theorem side_amounts_error_validation (side : Side) (size price : Dec) (decimals : Nat)
    (e : Error) (h : side_amounts side size price decimals = .error e) :
    e.kind = ErrorKind.validation := by
  cases side <;> simp [side_amounts] at h
  subst h
  rfl

theorem to_fixed_u128_error_validation (d : Dec) (e : Error)
    (h : to_fixed_u128 d = .error e) : e.kind = ErrorKind.validation := by
  unfold to_fixed_u128 at h
  split at h
  · simp at h; subst h; rfl
  · split at h <;> simp at h
    subst h; rfl

/-- Every failure of the embedded order builder is a validation-kind error. -/
theorem sign_limit_order_error_validation (c : HotPathClient) (req : LimitOrderRequest)
    (ov : LimitOrderOverrides) (seed : Nat) (e : Error)
    (h : sign_limit_order c req ov seed = .error e) : e.kind = ErrorKind.validation := by
  simp only [sign_limit_order] at h
  repeat' split at h
  all_goals (try exact Except.noConfusion h)
  all_goals (injection h with h; subst h)
  all_goals
    first
    | rfl
    | exact resolve_tick_error_validation _ _ _ (by assumption)
    | exact resolve_neg_error_validation _ _ _ (by assumption)
    | exact resolve_fee_error_validation _ _ _ (by assumption)
    | exact side_amounts_error_validation _ _ _ _ _ (by assumption)
    | exact to_fixed_u128_error_validation _ _ (by assumption)

/-- If the builder succeeds then the price-range check passed for the
resolved tick size. -/
theorem sign_limit_order_ok_price_in_range (c : HotPathClient) (req : LimitOrderRequest)
    (ov : LimitOrderOverrides) (seed : Nat) (o : Order) (tick : TickSize)
    (hts : resolve_override ov.tick_size c.policies.default_tick_size = .ok tick)
    (h : sign_limit_order c req ov seed = .ok o) :
    price_out_of_range req.price tick.as_decimal = false := by
  simp only [sign_limit_order] at h
  rw [hts] at h
  repeat' split at h
  all_goals simp_all

/-- C1: the spec's worked example (price 0.55, size 10.00, tick 0.01, side
Buy) is refuted by the code: `sign_limit_order` builds the order with
`takerAmount = 10` and `makerAmount = 55`, the bare mantissas of the
normalized decimals, not the 6-decimal fixed-point values 10_000000 and
5_500000 the claim states — `to_fixed_u128` never rescales the truncated
decimal up to 6 fractional digits before taking its mantissa. -/
theorem c1_spec_example_amounts_diverge :
    (sign_limit_order clientEx requestEx LimitOrderOverrides.default 0).map
        (fun o => (o.takerAmount, o.makerAmount)) = .ok (10, 55) ∧
    ((10, 55) : Nat × Nat) ≠ ((10000000, 5500000) : Nat × Nat) :=
  ⟨rfl, by decide⟩

/-- C2: `create_or_derive_api_key` returns a create success directly, falls
back to the derive call exactly on a Status-kind create error, and on any
other error kind propagates the create error with a result independent of
the derive endpoint (the derive call is never issued). -/
theorem c2_create_or_derive_fallback (create : Except Error Credentials)
    (derive : Unit → Except Error Credentials) :
    (∀ creds, create = .ok creds → create_or_derive_api_key create derive = .ok creds) ∧
    (∀ err, create = .error err → err.kind = ErrorKind.status →
      create_or_derive_api_key create derive = derive ()) ∧
    (∀ err, create = .error err → err.kind ≠ ErrorKind.status →
      ∀ derive2 : Unit → Except Error Credentials,
        create_or_derive_api_key create derive2 = .error err) := by
  refine ⟨?_, ?_, ?_⟩
  · intro creds hc
    subst hc
    rfl
  · intro err hc hk
    subst hc
    simp [create_or_derive_api_key, hk]
  · intro err hc hk derive2
    subst hc
    simp [create_or_derive_api_key, hk]

/-- Witness for C2: a simulated create endpoint answering with a 409-class
status error makes the flow return the derive-path credentials. -/
theorem c2_create_or_derive_fallback_witness :
    create_or_derive_api_key (.error ⟨ErrorKind.status, "409 Conflict"⟩)
      (fun _ => .ok ⟨"k", "s", "p"⟩) = .ok ⟨"k", "s", "p"⟩ :=
  (c2_create_or_derive_fallback (.error ⟨ErrorKind.status, "409 Conflict"⟩)
    (fun _ => .ok ⟨"k", "s", "p"⟩)).2.1 ⟨ErrorKind.status, "409 Conflict"⟩ rfl rfl

/-- C7: `resolve_timestamp` returns a per-call override whatever the time
policy (even `FetchAndCache`); without an override the `Fixed` policy
returns the current wall-clock unix second (the `now` argument) and
`FetchAndCache` always fails with a validation error. -/
theorem c7_resolve_timestamp_spec (now : Int) (policy : TimePolicy)
    (override_timestamp : Option Int) :
    (∀ ts, override_timestamp = some ts →
      resolve_timestamp now policy override_timestamp = .ok ts) ∧
    (override_timestamp = none → policy = TimePolicy.Fixed →
      resolve_timestamp now policy override_timestamp = .ok now) ∧
    (override_timestamp = none → policy = TimePolicy.FetchAndCache →
      ∃ e, resolve_timestamp now policy override_timestamp = .error e ∧
        e.kind = ErrorKind.validation) := by
  refine ⟨?_, ?_, ?_⟩
  · intro ts ho
    subst ho
    rfl
  · intro ho hp
    subst ho; subst hp
    rfl
  · intro ho hp
    subst ho; subst hp
    exact ⟨_, rfl, rfl⟩

/-- Witness for C7: an override is honoured even under the unimplemented
`FetchAndCache` policy. -/
theorem c7_resolve_timestamp_spec_witness :
    resolve_timestamp 1700000000 TimePolicy.FetchAndCache (some 42) = .ok 42 :=
  (c7_resolve_timestamp_spec 1700000000 TimePolicy.FetchAndCache (some 42)).1 42 rfl

/-- C8: idempotence of the fixed-point conversion under truncation to 6
fractional digits fails on the code: for d = 0.1000001 (non-negative),
truncating to 6 digits first yields 1 while converting directly yields
100000, because `to_fixed_u128` returns the mantissa of the normalized
truncated decimal without rescaling it to 6 fractional digits. -/
theorem c8_to_fixed_u128_not_idempotent :
    to_fixed_u128 ((⟨1000001, 7⟩ : Dec).trunc_with_scale USDC_DECIMALS) = .ok 1 ∧
    to_fixed_u128 ⟨1000001, 7⟩ = .ok 100000 ∧ (1 : Nat) ≠ 100000 :=
  ⟨rfl, rfl, by decide⟩

/-- C9: the salt mask keeps every 64-bit seed within IEEE-754 double integer
precision: `to_ieee_754_int x ≤ 2^53 − 1`. -/
theorem c9_salt_within_ieee754 (x : Nat) (_hx : x < 2 ^ 64) :
    to_ieee_754_int x ≤ 2 ^ 53 - 1 := by
  calc to_ieee_754_int x ≤ (1 <<< 53) - 1 := Nat.and_le_right
    _ = 2 ^ 53 - 1 := by rw [Nat.one_shiftLeft]

/-- Witness for C9 at the largest 64-bit seed. -/
theorem c9_salt_within_ieee754_witness :
    2 ^ 64 - 1 < 2 ^ 64 ∧ to_ieee_754_int (2 ^ 64 - 1) ≤ 2 ^ 53 - 1 :=
  ⟨by norm_num, c9_salt_within_ieee754 (2 ^ 64 - 1) (by norm_num)⟩

theorem ensure_supported_error_validation (t : TimePolicy) (e : Error)
    (h : t.ensure_supported = .error e) : e.kind = ErrorKind.validation := by
  cases t <;> simp [TimePolicy.ensure_supported] at h
  subst h
  rfl

theorem default_tick_size_error_validation (p : HotPathPolicies) (e : Error)
    (h : p.default_tick_size = .error e) : e.kind = ErrorKind.validation :=
  resolve_fixed_error_validation p.tick_size "tick_size" e h

theorem default_neg_risk_error_validation (p : HotPathPolicies) (e : Error)
    (h : p.default_neg_risk = .error e) : e.kind = ErrorKind.validation :=
  resolve_fixed_error_validation p.neg_risk "neg_risk" e h

theorem default_fee_rate_bps_error_validation (p : HotPathPolicies) (e : Error)
    (h : p.default_fee_rate_bps = .error e) : e.kind = ErrorKind.validation :=
  resolve_fixed_error_validation p.fee_rate_bps "fee_rate_bps" e h

theorem policies_validate_error_validation (p : HotPathPolicies) (e : Error)
    (h : p.validate = .error e) : e.kind = ErrorKind.validation := by
  unfold HotPathPolicies.validate at h
  repeat' split at h
  all_goals (try exact Except.noConfusion h)
  all_goals (injection h with h; subst h)
  all_goals
    first
    | exact ensure_supported_error_validation _ _ (by assumption)
    | exact default_tick_size_error_validation _ _ (by assumption)
    | exact default_neg_risk_error_validation _ _ (by assumption)
    | exact default_fee_rate_bps_error_validation _ _ (by assumption)

/-- C3: `HotPathConfig::new` succeeds exactly when the chain is Polygon
mainnet, the signature type is not EOA, the funder is non-zero and all four
policy slots are `Fixed`, and every rejection is a validation-kind error
raised by this pure constructor (no network activity is involved). -/
theorem c3_config_new_iff (host : String) (chain_id : Nat) (private_key : String)
    (signature_type : SignatureType) (funder : Address) (nonce : Option Nat)
    (policies : HotPathPolicies) :
    ((HotPathConfig.new host chain_id private_key signature_type funder nonce
        policies).isOk = true ↔
      (chain_id = POLYGON ∧ signature_type ≠ SignatureType.Eoa ∧ funder ≠ Address.ZERO ∧
        policies.tick_size.isFixed = true ∧ policies.neg_risk.isFixed = true ∧
        policies.fee_rate_bps.isFixed = true ∧ policies.time = TimePolicy.Fixed)) ∧
    (∀ e, HotPathConfig.new host chain_id private_key signature_type funder nonce
        policies = .error e → e.kind = ErrorKind.validation) := by
  constructor
  · obtain ⟨ts, nr, fr, tm⟩ := policies
    by_cases h1 : chain_id = POLYGON <;>
      by_cases h2 : signature_type = SignatureType.Eoa <;>
        by_cases h3 : funder = Address.ZERO <;>
          cases ts <;> cases nr <;> cases fr <;> cases tm <;>
            simp_all [HotPathConfig.new, HotPathPolicies.validate,
              HotPathPolicies.default_tick_size, HotPathPolicies.default_neg_risk,
              HotPathPolicies.default_fee_rate_bps, TimePolicy.ensure_supported,
              FixedOrFetch.resolve_fixed, FixedOrFetch.isFixed, Except.isOk, Except.toBool]
  · intro e h
    unfold HotPathConfig.new at h
    repeat' split at h
    all_goals (try exact Except.noConfusion h)
    all_goals (injection h with h; subst h)
    all_goals
      first
      | rfl
      | exact policies_validate_error_validation _ _ (by assumption)

/-- Witness for C3: a fully fixed Polygon/Proxy configuration is accepted,
and changing only the chain id to 1 is rejected with a validation error. -/
theorem c3_config_new_iff_witness :
    (HotPathConfig.new "https://clob.example" 137 "pk" SignatureType.Proxy (1 : Nat) none
        fixedPolicies).isOk = true ∧
    (∃ e, HotPathConfig.new "https://clob.example" 1 "pk" SignatureType.Proxy (1 : Nat) none
        fixedPolicies = .error e ∧ e.kind = ErrorKind.validation) :=
  ⟨(c3_config_new_iff "https://clob.example" 137 "pk" SignatureType.Proxy (1 : Nat) none
      fixedPolicies).1.mpr
      ⟨rfl, by decide, by decide, rfl, rfl, rfl, rfl⟩,
    ⟨_, rfl,
      (c3_config_new_iff "https://clob.example" 1 "pk" SignatureType.Proxy (1 : Nat) none
        fixedPolicies).2 _ rfl⟩⟩

/-- C4: with the price's scale within the tick size's scale, the builder
fails with a validation error whenever the price's value lies outside the
closed interval [tickSize, 1 − tickSize], and the price-range check itself
passes for a price exactly equal to either boundary. -/
theorem c4_price_range_check (c : HotPathClient) (request : LimitOrderRequest)
    (overrides : LimitOrderOverrides) (seed : Nat) (tick : TickSize)
    (hts : overrides.tick_size = some tick)
    (hscale : request.price.scale ≤ tick.as_decimal.scale) :
    ((request.price.lt tick.as_decimal = true ∨
        (Dec.one.sub tick.as_decimal).lt request.price = true) →
      ∃ e, sign_limit_order c request overrides seed = .error e ∧
        e.kind = ErrorKind.validation) ∧
    ((request.price.beq tick.as_decimal = true ∨
        request.price.beq (Dec.one.sub tick.as_decimal) = true) →
      price_out_of_range request.price tick.as_decimal = false) := by
  constructor
  · intro hout
    cases hres : sign_limit_order c request overrides seed with
    | error e =>
        exact ⟨e, rfl, sign_limit_order_error_validation c request overrides seed e hres⟩
    | ok o =>
        exfalso
        have hin := sign_limit_order_ok_price_in_range c request overrides seed o tick
          (by simp [resolve_override, hts]) hres
        simp only [price_out_of_range, Bool.or_eq_false_iff] at hin
        rcases hout with h | h
        · rw [hin.1] at h; exact Bool.noConfusion h
        · rw [hin.2] at h; exact Bool.noConfusion h
  · intro hbeq
    have hp : (0 : Int) < 10 ^ request.price.scale := by positivity
    cases tick <;>
      simp only [TickSize.as_decimal, Dec.one, Dec.sub, Dec.lt, Dec.beq,
        price_out_of_range, Bool.or_eq_false_iff, decide_eq_false_iff_not,
        decide_eq_true_eq] at hbeq ⊢ <;>
      norm_num at hbeq ⊢ <;>
      rcases hbeq with hb | hb <;>
      constructor <;> linarith

/-- Witness for C4: tick 0.01 with a zero price is rejected with a
validation error, and the boundary price 0.01 passes the range check. -/
theorem c4_price_range_check_witness :
    (∃ e, sign_limit_order clientEx
        { requestEx with price := ⟨0, 0⟩ }
        { LimitOrderOverrides.default with tick_size := some TickSize.hundredth } 0
        = .error e ∧ e.kind = ErrorKind.validation) ∧
    price_out_of_range (⟨1, 2⟩ : Dec) TickSize.hundredth.as_decimal = false :=
  ⟨(c4_price_range_check clientEx { requestEx with price := ⟨0, 0⟩ }
      { LimitOrderOverrides.default with tick_size := some TickSize.hundredth } 0
      TickSize.hundredth rfl (by decide)).1 (Or.inl (by decide)),
    (c4_price_range_check clientEx { requestEx with price := ⟨1, 2⟩ }
      { LimitOrderOverrides.default with tick_size := some TickSize.hundredth } 0
      TickSize.hundredth rfl (by decide)).2 (Or.inl (by decide))⟩

/-- C5: once the checks that precede it pass, a size with more than 2
fractional digits makes the builder fail with a validation error whose
message names the lot size, while the lot-size check itself passes for every
size of scale at most 2. -/
theorem c5_lot_size_check (c : HotPathClient) (request : LimitOrderRequest)
    (overrides : LimitOrderOverrides) (seed : Nat) (tick : TickSize) (nb : Bool) (fr : Nat)
    (h1 : resolve_override overrides.tick_size c.policies.default_tick_size = .ok tick)
    (h2 : resolve_override overrides.neg_risk c.policies.default_neg_risk = .ok nb)
    (h3 : resolve_override overrides.fee_rate_bps c.policies.default_fee_rate_bps = .ok fr)
    (h4 : non_gtd_expiration (request.order_type.getD OrderType.GTC)
            (request.expiration.getD 0) = false)
    (h5 : post_only_unsupported (request.post_only.getD false)
            (request.order_type.getD OrderType.GTC) = false)
    (h6 : request.price.is_sign_negative = false)
    (h7 : (request.size.is_zero || request.size.is_sign_negative) = false) :
    (LOT_SIZE_SCALE < request.size.scale →
      ∃ e, sign_limit_order c request overrides seed = .error e ∧
        e.kind = ErrorKind.validation ∧
        ∃ a b, e.msg = a ++ "lot size" ++ b) ∧
    (request.size.scale ≤ LOT_SIZE_SCALE → size_scale_exceeded request.size = false) := by
  constructor
  · intro hgt
    have hss : size_scale_exceeded request.size = true := by
      simp [size_scale_exceeded]
      exact hgt
    refine ⟨Error.validation
        ("Unable to build Order: Size " ++ request.size.render ++ " has "
          ++ toString request.size.scale ++ " decimal places. Maximum " ++ "lot size"
          ++ " is " ++ toString LOT_SIZE_SCALE), ?_, rfl,
      "Unable to build Order: Size " ++ request.size.render ++ " has "
        ++ toString request.size.scale ++ " decimal places. Maximum ",
      " is " ++ toString LOT_SIZE_SCALE, ?_⟩
    · simp [sign_limit_order, h1, h2, h3, h4, h5, h6, h7, hss]
    · simp only [Error.msg_validation, String.append_assoc]
  · intro hle
    simp [size_scale_exceeded]
    exact hle

/-- Witness for C5: size 1.234 (scale 3) is rejected with a message naming
the lot size; size 10.00 (scale 2) passes the lot-size check. -/
theorem c5_lot_size_check_witness :
    (∃ e, sign_limit_order clientEx { requestEx with size := ⟨1234, 3⟩ }
        LimitOrderOverrides.default 0 = .error e ∧
      e.kind = ErrorKind.validation ∧ ∃ a b, e.msg = a ++ "lot size" ++ b) ∧
    size_scale_exceeded (⟨1000, 2⟩ : Dec) = false :=
  ⟨(c5_lot_size_check clientEx { requestEx with size := ⟨1234, 3⟩ }
      LimitOrderOverrides.default 0 TickSize.hundredth false 0
      rfl rfl rfl rfl rfl rfl rfl).1 (by decide),
    (c5_lot_size_check clientEx { requestEx with size := ⟨1000, 2⟩ }
      LimitOrderOverrides.default 0 TickSize.hundredth false 0
      rfl rfl rfl rfl rfl rfl rfl).2 (by decide)⟩

/-- C6: once the policy slots resolve, a non-GTD lifetime type (including
the GTC default taken when the request leaves the type unset) combined with
an expiration strictly after the unix epoch is rejected with a validation
error mentioning GTD, while the expiration check never fires for a GTD
order. -/
theorem c6_gtd_expiration_check (c : HotPathClient) (request : LimitOrderRequest)
    (overrides : LimitOrderOverrides) (seed : Nat) (tick : TickSize) (nb : Bool) (fr : Nat)
    (h1 : resolve_override overrides.tick_size c.policies.default_tick_size = .ok tick)
    (h2 : resolve_override overrides.neg_risk c.policies.default_neg_risk = .ok nb)
    (h3 : resolve_override overrides.fee_rate_bps c.policies.default_fee_rate_bps = .ok fr) :
    ((request.order_type.getD OrderType.GTC) ≠ OrderType.GTD →
      0 < request.expiration.getD 0 →
      ∃ e, sign_limit_order c request overrides seed = .error e ∧
        e.kind = ErrorKind.validation ∧
        e.msg = "Only GTD orders may have a non-zero expiration" ∧
        ∃ a b, e.msg = a ++ "GTD" ++ b) ∧
    (∀ expiration : Int, non_gtd_expiration OrderType.GTD expiration = false) := by
  constructor
  · intro hot hexp
    have hcond : non_gtd_expiration (request.order_type.getD OrderType.GTC)
        (request.expiration.getD 0) = true := by
      simp [non_gtd_expiration, hot, hexp]
    refine ⟨Error.validation "Only GTD orders may have a non-zero expiration", ?_, rfl, rfl,
      "Only ", " orders may have a non-zero expiration", rfl⟩
    simp [sign_limit_order, h1, h2, h3, hcond]
  · intro expiration
    simp [non_gtd_expiration]

/-- Witness for C6: a GTC order type with expiration 1700000000 is rejected
with the GTD message, and a GTD order type never trips the check. -/
theorem c6_gtd_expiration_check_witness :
    (∃ e, sign_limit_order clientEx
        { requestEx with expiration := some 1700000000 } LimitOrderOverrides.default 0
        = .error e ∧ e.kind = ErrorKind.validation ∧
        e.msg = "Only GTD orders may have a non-zero expiration" ∧
        ∃ a b, e.msg = a ++ "GTD" ++ b) ∧
    non_gtd_expiration OrderType.GTD 1700000000 = false :=
  ⟨(c6_gtd_expiration_check clientEx { requestEx with expiration := some 1700000000 }
      LimitOrderOverrides.default 0 TickSize.hundredth false 0 rfl rfl rfl).1
      (by decide) (by decide),
    (c6_gtd_expiration_check clientEx { requestEx with expiration := some 1700000000 }
      LimitOrderOverrides.default 0 TickSize.hundredth false 0 rfl rfl rfl).2 1700000000⟩

/-- C10: building a client from known credentials validates only the
signature-type/funder pair — any `FetchAndCache` value slot is accepted at
construction — and the "not implemented" unsupported-policy error for the
tick-size, negative-risk or fee-rate slot first surfaces when
`sign_limit_order` runs without a per-call override for that slot. -/
theorem c10_with_credentials_lazy_policies (config : HotPathConfig) (addr : Address)
    (creds : Credentials) (request : LimitOrderRequest) (seed : Nat)
    (hst : config.signature_type ≠ SignatureType.Eoa)
    (hf : config.funder ≠ Address.ZERO) :
    ∃ client, with_credentials_inner config addr creds = .ok client ∧
      client.policies = config.policies ∧
      (∀ ov : LimitOrderOverrides, config.policies.tick_size = .FetchAndCache →
        ov.tick_size = none →
        sign_limit_order client request ov seed = .error (Error.validation
          "tick_size policy FetchAndCache is not implemented in hotpath yet")) ∧
      (∀ (ov : LimitOrderOverrides) (tick : TickSize),
        config.policies.neg_risk = .FetchAndCache → ov.neg_risk = none →
        resolve_override ov.tick_size config.policies.default_tick_size = .ok tick →
        sign_limit_order client request ov seed = .error (Error.validation
          "neg_risk policy FetchAndCache is not implemented in hotpath yet")) ∧
      (∀ (ov : LimitOrderOverrides) (tick : TickSize) (nb : Bool),
        config.policies.fee_rate_bps = .FetchAndCache → ov.fee_rate_bps = none →
        resolve_override ov.tick_size config.policies.default_tick_size = .ok tick →
        resolve_override ov.neg_risk config.policies.default_neg_risk = .ok nb →
        sign_limit_order client request ov seed = .error (Error.validation
          "fee_rate_bps policy FetchAndCache is not implemented in hotpath yet")) := by
  have hconstr : with_credentials_inner config addr creds = .ok
      { host := config.host, chain_id := config.chain_id, nonce := config.nonce,
        signerAddress := addr, signature_type := config.signature_type,
        funder := config.funder, policies := config.policies, credentials := creds } := by
    simp [with_credentials_inner, validate_funder_signature, hst, hf]
  refine ⟨_, hconstr, rfl, ?_, ?_, ?_⟩
  · intro ov hfetch hovt
    simp [sign_limit_order, resolve_override, hovt, HotPathPolicies.default_tick_size,
      hfetch, FixedOrFetch.resolve_fixed]
  · intro ov tick hfetch hovn hovt
    simp only [sign_limit_order]
    rw [hovt]
    simp [hovn, resolve_override, HotPathPolicies.default_neg_risk, hfetch,
      FixedOrFetch.resolve_fixed]
  · intro ov tick nb hfetch hovf hovt hovn
    simp only [sign_limit_order]
    rw [hovt, hovn]
    simp [hovf, resolve_override, HotPathPolicies.default_fee_rate_bps, hfetch,
      FixedOrFetch.resolve_fixed]

/-- Witness for C10: a config whose tick-size slot is `FetchAndCache` is
accepted by the credentials-only constructor, and the not-implemented error
appears at the first sign call without a tick-size override. -/
theorem c10_with_credentials_lazy_policies_witness :
    ∃ client,
      with_credentials_inner
        { host := "https://clob.example", chain_id := POLYGON, private_key := "pk",
          signature_type := SignatureType.Proxy, funder := (1 : Nat), nonce := none,
          policies := ⟨.FetchAndCache, .Fixed false, .Fixed 0, .Fixed⟩ }
        (2 : Nat) ⟨"key", "secret", "pass"⟩ = .ok client ∧
      sign_limit_order client requestEx LimitOrderOverrides.default 0 =
        .error (Error.validation
          "tick_size policy FetchAndCache is not implemented in hotpath yet") := by
  obtain ⟨client, hok, hpol, htick, hneg, hfee⟩ :=
    c10_with_credentials_lazy_policies
      { host := "https://clob.example", chain_id := POLYGON, private_key := "pk",
        signature_type := SignatureType.Proxy, funder := (1 : Nat), nonce := none,
        policies := ⟨.FetchAndCache, .Fixed false, .Fixed 0, .Fixed⟩ }
      (2 : Nat) ⟨"key", "secret", "pass"⟩ requestEx 0 (by decide) (by decide)
  exact ⟨client, hok, htick LimitOrderOverrides.default rfl rfl⟩
